import Mathlib

/-!
Verification development for a backup pipeline (PostgreSQL dump / Minecraft
directory archive → Google Drive upload → newest-K retention pruning).

The Rust source is embedded shallowly: remote calls become explicit
environments of predetermined outcomes (`Except String _` per call site),
straight-line fallible code becomes `Except`-valued definitions, and the
orchestration functions additionally return a trace of the actions they
performed. Timestamps are abstracted as natural numbers.
-/

set_option autoImplicit false

namespace Goog

/-- A Google Drive file as projected by the listing calls in this program:
only the `id`, `name`, and `createdTime` fields are requested. Creation
times are abstracted to natural numbers. -/
structure DriveFile where
  id : Option String
  name : Option String
  createdTime : Option Nat
deriving Repr, DecidableEq

/-- One page of a `files.list` response: the optional array of files and the
optional continuation token, mirroring the two fields the code reads. -/
structure FileListPage where
  files : Option (List DriveFile)
  next_page_token : Option String
deriving Repr, DecidableEq

/-- The pagination loop of `list_all_files_in_folder` (src/drive/prune.rs).
`responses` models the server replies to the successive page requests, in
order: a transport error on any request makes the whole listing fail. The
loop appends each page's files (absent array contributes nothing), then
continues exactly when the reply carries a nonempty `next_page_token`.
`none` as the overall result means the model ran out of server replies while
the code would have requested another page. -/
def listLoop : List (Except String FileListPage) → List DriveFile →
    Option (Except String (List DriveFile))
  | [], _ => none
  | r :: rest, acc =>
    match r with
    | .error e => some (.error e)
    | .ok page =>
      let acc2 := acc ++ page.files.getD []
      match page.next_page_token with
      | some tok => if tok.isEmpty then some (.ok acc2) else listLoop rest acc2
      | none => some (.ok acc2)

/-- `list_all_files_in_folder` (src/drive/prune.rs lines 9-56): run the
pagination loop starting from an empty accumulator. -/
def list_all_files_in_folder (responses : List (Except String FileListPage)) :
    Option (Except String (List DriveFile)) :=
  listLoop responses []

/-- A well-formed server conversation: at least one page, every page before
the last carries a nonempty continuation token, and the last page ends the
conversation with an absent or empty token. -/
def chainedPages : List FileListPage → Bool
  | [] => false
  | [p] =>
    match p.next_page_token with
    | some tok => tok.isEmpty
    | none => true
  | p :: q :: rest =>
    match p.next_page_token with
    | some tok => !tok.isEmpty && chainedPages (q :: rest)
    | none => false

/-- Newest-first ordering on listed files (the listing is requested with
`order_by createdTime desc`). -/
def createdDesc (a b : DriveFile) : Prop :=
  b.createdTime.getD 0 ≤ a.createdTime.getD 0

instance : DecidableRel createdDesc := fun a b =>
  inferInstanceAs (Decidable (b.createdTime.getD 0 ≤ a.createdTime.getD 0))

/-- Strictly-newest-first ordering (distinct creation times). -/
def createdStrictDesc (a b : DriveFile) : Prop :=
  b.createdTime.getD 0 < a.createdTime.getD 0

instance : DecidableRel createdStrictDesc := fun a b =>
  inferInstanceAs (Decidable (b.createdTime.getD 0 < a.createdTime.getD 0))

/-- The deletion sweep of `prune_old_backups` over the slice `files[keep..]`:
an entry with no id is skipped (with a warning) and never attempted; for an
entry with an id a deletion is attempted, and the success counter grows
exactly when the deletion succeeds (`deleteOk`). Returns the success count
and the list of attempted ids, in sweep order. -/
def pruneSweep (deleteOk : String → Bool) : List DriveFile → Nat × List String
  | [] => (0, [])
  | f :: rest =>
    match f.id with
    | none => pruneSweep deleteOk rest
    | some fid =>
      let r := pruneSweep deleteOk rest
      (if deleteOk fid then r.1 + 1 else r.1, fid :: r.2)

/-- `prune_old_backups` (src/drive/prune.rs lines 60-124), after a successful
listing `files` (already newest-first): if `files.length ≤ keep` return 0 with
no deletion attempted; otherwise sweep over `files.drop keep`. Returns the
deleted count together with the attempted ids. -/
def prune_old_backups (files : List DriveFile) (keep : Nat)
    (deleteOk : String → Bool) : Nat × List String :=
  if files.length ≤ keep then (0, [])
  else pruneSweep deleteOk (files.drop keep)

/-- The whole prune call including the initial listing: a listing failure is
the only error path; a successful listing always yields an `ok` count. -/
def prune_old_backups_run (responses : List (Except String FileListPage))
    (keep : Nat) (deleteOk : String → Bool) :
    Option (Except String Nat × List String) :=
  match list_all_files_in_folder responses with
  | none => none
  | some (.error e) => some (.error e, [])
  | some (.ok files) =>
    let r := prune_old_backups files keep deleteOk
    some (.ok r.1, r.2)

/-- Helper: the pagination loop over a well-chained page sequence (no
transport errors) returns the accumulator followed by the concatenation of
every page's files. -/
theorem listLoop_chained (pages : List FileListPage) (acc : List DriveFile)
    (h : chainedPages pages = true) :
    listLoop (pages.map Except.ok) acc =
      some (.ok (acc ++ (pages.map (fun p => p.files.getD [])).flatten)) := by
  induction pages generalizing acc with
  | nil => simp [chainedPages] at h
  | cons p rest ih =>
    cases rest with
    | nil =>
      cases hp : p.next_page_token with
      | none => simp [listLoop, hp]
      | some tok =>
        simp only [chainedPages, hp] at h
        simp [listLoop, hp, h]
    | cons q rest2 =>
      cases hp : p.next_page_token with
      | none => simp [chainedPages, hp] at h
      | some tok =>
        simp only [chainedPages, hp, Bool.and_eq_true, Bool.not_eq_true'] at h
        have htok : tok.isEmpty = false := by
          simpa using h.1
        have key := ih (acc ++ p.files.getD []) h.2
        simp only [List.map_cons, listLoop, hp, htok, Bool.false_eq_true,
          if_false] at key ⊢
        simpa [List.append_assoc] using key

/-- Helper: sweep attempts exactly the ids present in the slice, in order,
independently of which deletions succeed. -/
theorem pruneSweep_attempted (deleteOk : String → Bool) (l : List DriveFile) :
    (pruneSweep deleteOk l).2 = l.filterMap (fun f => f.id) := by
  induction l with
  | nil => rfl
  | cons f rest ih =>
    cases hf : f.id <;> simp [pruneSweep, hf, ih]

/-- Helper: the sweep's counter equals the number of attempted ids whose
deletion succeeded. -/
theorem pruneSweep_count (deleteOk : String → Bool) (l : List DriveFile) :
    (pruneSweep deleteOk l).1 = (pruneSweep deleteOk l).2.countP deleteOk := by
  induction l with
  | nil => rfl
  | cons f rest ih =>
    cases hf : f.id with
    | none => simp [pruneSweep, hf, ih]
    | some fid =>
      cases hd : deleteOk fid <;>
        simp [pruneSweep, hf, hd, ih, List.countP_cons]

/-- Helper: `filterMap` by `id` preserves length when every entry has an id. -/
theorem filterMap_id_length (l : List DriveFile) (h : ∀ f ∈ l, f.id.isSome) :
    (l.filterMap (fun f => f.id)).length = l.length := by
  induction l with
  | nil => rfl
  | cons f rest ih =>
    have hf := h f (List.mem_cons_self f rest)
    obtain ⟨fid, hfid⟩ := Option.isSome_iff_exists.mp hf
    have hrest : ∀ g ∈ rest, g.id.isSome := fun g hg => h g (List.mem_cons_of_mem f hg)
    simp [hfid, ih hrest]

/-- C4: for every paginated listing split into any number of pages ≥ 1, the
listing function follows the continuation cursor until the server returns no
cursor or an empty one, and returns the concatenation of every page as one
sequence; when the server honors the requested descending creation-time
ordering, the returned sequence is in descending creation-time order. -/
theorem list_all_files_follows_every_page (pages : List FileListPage)
    (hchain : chainedPages pages = true)
    (hsorted : ((pages.map (fun p => p.files.getD [])).flatten).Sorted createdDesc) :
    list_all_files_in_folder (pages.map Except.ok) =
      some (.ok ((pages.map (fun p => p.files.getD [])).flatten))
    ∧ ((pages.map (fun p => p.files.getD [])).flatten).Sorted createdDesc := by
  refine ⟨?_, hsorted⟩
  simpa [list_all_files_in_folder] using listLoop_chained pages [] hchain

/-- Concrete two-page conversation used to witness the pagination theorems. -/
def wPages : List FileListPage :=
  [⟨some [⟨some "f3", some "b3", some 30⟩, ⟨some "f2", some "b2", some 20⟩],
      some "tok1"⟩,
   ⟨some [⟨some "f1", some "b1", some 10⟩], none⟩]

theorem list_all_files_follows_every_page_witness :
    chainedPages wPages = true
    ∧ list_all_files_in_folder (wPages.map Except.ok) =
        some (.ok ((wPages.map (fun p => p.files.getD [])).flatten)) :=
  ⟨by decide,
   (list_all_files_follows_every_page wPages (by decide) (by decide)).1⟩

/-- C1: over a newest-first listing of files that all carry distinct ids and
strictly descending (hence distinct) creation times: when `N ≤ keep` the
prune performs no deletion and returns 0; otherwise it attempts exactly the
`N − keep` entries at 0-indexed positions `keep` and beyond, and the ids of
the `keep` newest entries are never targeted. -/
theorem prune_old_backups_targets_exactly_oldest (files : List DriveFile)
    (keep : Nat) (deleteOk : String → Bool)
    (hids : ∀ f ∈ files, f.id.isSome)
    (hnodup : (files.filterMap (fun f => f.id)).Nodup)
    (hsorted : files.Sorted createdStrictDesc) :
    (files.length ≤ keep → prune_old_backups files keep deleteOk = (0, []))
    ∧ (keep < files.length →
        (prune_old_backups files keep deleteOk).2
            = (files.drop keep).filterMap (fun f => f.id)
        ∧ ((prune_old_backups files keep deleteOk).2).length
            = files.length - keep
        ∧ ∀ f ∈ files.take keep, ∀ s, f.id = some s →
            s ∉ (prune_old_backups files keep deleteOk).2) := by
  constructor
  · intro hle
    simp [prune_old_backups, hle]
  · intro hlt
    have hnle : ¬ files.length ≤ keep := not_le.mpr hlt
    have hatt : (prune_old_backups files keep deleteOk).2
        = (files.drop keep).filterMap (fun f => f.id) := by
      simp [prune_old_backups, hnle, pruneSweep_attempted]
    refine ⟨hatt, ?_, ?_⟩
    · rw [hatt, filterMap_id_length, List.length_drop]
      exact fun f hf => hids f (List.mem_of_mem_drop hf)
    · intro f hf s hs hmem
      rw [hatt] at hmem
      have hsplit : files.filterMap (fun g => g.id)
          = (files.take keep).filterMap (fun g => g.id)
            ++ (files.drop keep).filterMap (fun g => g.id) := by
        rw [← List.filterMap_append, List.take_append_drop]
      rw [hsplit, List.nodup_append] at hnodup
      have hin : s ∈ (files.take keep).filterMap (fun g => g.id) :=
        List.mem_filterMap.mpr ⟨f, hf, hs⟩
      exact hnodup.2.2 hin hmem

/-- Concrete five-file newest-first listing used to witness the prune
theorems (creation times 50 > 40 > 30 > 20 > 10, keep-count 3). -/
def wFiles : List DriveFile :=
  [⟨some "f5", some "b5", some 50⟩, ⟨some "f4", some "b4", some 40⟩,
   ⟨some "f3", some "b3", some 30⟩, ⟨some "f2", some "b2", some 20⟩,
   ⟨some "f1", some "b1", some 10⟩]

theorem prune_old_backups_targets_exactly_oldest_witness :
    ((∀ f ∈ wFiles, f.id.isSome)
      ∧ (wFiles.filterMap (fun f => f.id)).Nodup
      ∧ wFiles.Sorted createdStrictDesc)
    ∧ ((wFiles.length ≤ 3 →
          prune_old_backups wFiles 3 (fun _ => true) = (0, []))
      ∧ (3 < wFiles.length →
          (prune_old_backups wFiles 3 (fun _ => true)).2
              = (wFiles.drop 3).filterMap (fun f => f.id)
          ∧ ((prune_old_backups wFiles 3 (fun _ => true)).2).length
              = wFiles.length - 3
          ∧ ∀ f ∈ wFiles.take 3, ∀ s, f.id = some s →
              s ∉ (prune_old_backups wFiles 3 (fun _ => true)).2)) :=
  ⟨⟨by decide, by decide, by decide⟩,
   prune_old_backups_targets_exactly_oldest wFiles 3 (fun _ => true)
     (by decide) (by decide) (by decide)⟩

/-- C6: after a successful listing the prune call always returns `ok`; each
deletion is attempted independently (the attempted-id list does not depend on
which deletions succeed, and an entry with no id is skipped without halting
the sweep); the returned count is exactly the number of successful
deletions. -/
theorem prune_old_backups_best_effort
    (responses : List (Except String FileListPage)) (keep : Nat)
    (deleteOk : String → Bool) (files : List DriveFile)
    (hlist : list_all_files_in_folder responses = some (.ok files)) :
    prune_old_backups_run responses keep deleteOk =
      some (.ok (prune_old_backups files keep deleteOk).1,
            (prune_old_backups files keep deleteOk).2)
    ∧ (prune_old_backups files keep deleteOk).2
        = (if files.length ≤ keep then []
           else (files.drop keep).filterMap (fun f => f.id))
    ∧ (prune_old_backups files keep deleteOk).1
        = ((prune_old_backups files keep deleteOk).2).countP deleteOk := by
  refine ⟨?_, ?_, ?_⟩
  · simp [prune_old_backups_run, hlist]
  · by_cases hle : files.length ≤ keep
    · simp [prune_old_backups, hle]
    · simp [prune_old_backups, hle, pruneSweep_attempted]
  · by_cases hle : files.length ≤ keep
    · simp [prune_old_backups, hle]
    · simp [prune_old_backups, hle, pruneSweep_count]

/-- Deletion oracle for the best-effort witness: one deletion fails. -/
def wDeleteOk : String → Bool := fun s => !(s == "f2")

theorem prune_old_backups_best_effort_witness :
    prune_old_backups_run [Except.ok ⟨some wFiles, none⟩] 3 wDeleteOk =
      some (.ok (prune_old_backups wFiles 3 wDeleteOk).1,
            (prune_old_backups wFiles 3 wDeleteOk).2)
    ∧ (prune_old_backups wFiles 3 wDeleteOk).2
        = (if wFiles.length ≤ 3 then []
           else (wFiles.drop 3).filterMap (fun f => f.id))
    ∧ (prune_old_backups wFiles 3 wDeleteOk).1
        = ((prune_old_backups wFiles 3 wDeleteOk).2).countP wDeleteOk :=
  prune_old_backups_best_effort [Except.ok ⟨some wFiles, none⟩] 3 wDeleteOk
    wFiles (by rfl)

/-- The folder-creation request metadata built by `find_or_create_folder`
(src/drive/upload.rs lines 56-61): requested name, folder MIME type, and the
parent id as the single element of `parents`. -/
structure FolderCreateRequest where
  name : Option String
  mimeType : Option String
  parents : Option (List String)
deriving Repr, DecidableEq

/-- `folder_metadata` as constructed in the source. -/
def folder_metadata (parent_id name : String) : FolderCreateRequest :=
  { name := some name
    mimeType := some "application/vnd.google-apps.folder"
    parents := some [parent_id] }

/-- The distinct fatal-error sites of `find_or_create_folder`: a transport
failure of the search call, a transport failure of the create call, and a
create response that carries no id. -/
inductive FolderError where
  | listTransport (msg : String)
  | createTransport (msg : String)
  | missingId
deriving Repr, DecidableEq

/-- Remote outcomes for one `find_or_create_folder` call: the search reply
(`files` array as the code reads it) and the create reply (`id` field of the
created file). -/
structure FolderRemote where
  listResult : Except String (Option (List DriveFile))
  createResult : Except String (Option String)
deriving Repr

/-- The create path of `find_or_create_folder` (src/drive/upload.rs lines
49-99): a transport error propagates, a reply with an id returns it, a reply
lacking an id is the distinct `missingId` fatal error. -/
def create_folder (env : FolderRemote) : Except FolderError String × Bool :=
  match env.createResult with
  | .error e => (.error (.createTransport e), true)
  | .ok (some fid) => (.ok fid, true)
  | .ok none => (.error .missingId, true)

/-- `find_or_create_folder` (src/drive/upload.rs lines 11-100). The returned
flag records whether a create call was issued. The search reply is used
through the exact chain of the source: a present `files` array whose first
element carries an id short-circuits to that id; otherwise (empty or absent
array, or first element without id) the folder is created. -/
def find_or_create_folder (env : FolderRemote) : Except FolderError String × Bool :=
  match env.listResult with
  | .error e => (.error (.listTransport e), false)
  | .ok files? =>
    match files? with
    | some (first :: _) =>
      match first.id with
      | some fid => (.ok fid, false)
      | none => create_folder env
    | _ => create_folder env

/-- C5: with one or more search matches whose first result carries an id, the
id is returned and nothing is created; with zero matches a folder is created
under the parent and its server-assigned id returned; a create reply lacking
an id is a fatal error distinct from both transport failures; and resolving
an existing name twice yields the same id with no create issued on either
call. -/
theorem find_or_create_folder_spec (env : FolderRemote) :
    (∀ first rest fid, env.listResult = .ok (some (first :: rest)) →
        first.id = some fid →
        find_or_create_folder env = (.ok fid, false)
        ∧ find_or_create_folder env = find_or_create_folder env)
    ∧ ((env.listResult = .ok none ∨ env.listResult = .ok (some [])) →
        (∀ cid, env.createResult = .ok (some cid) →
            find_or_create_folder env = (.ok cid, true))
        ∧ (env.createResult = .ok none →
            find_or_create_folder env = (.error .missingId, true)))
    ∧ (∀ msg, (FolderError.missingId ≠ FolderError.createTransport msg)
        ∧ (FolderError.missingId ≠ FolderError.listTransport msg))
    ∧ (∀ parent_id name,
        (folder_metadata parent_id name).parents = some [parent_id]) := by
  refine ⟨?_, ?_, ?_, ?_⟩
  · intro first rest fid hlist hid
    refine ⟨?_, rfl⟩
    simp [find_or_create_folder, hlist, hid]
  · intro hzero
    constructor
    · intro cid hcreate
      rcases hzero with h | h <;>
        simp [find_or_create_folder, create_folder, h, hcreate]
    · intro hcreate
      rcases hzero with h | h <;>
        simp [find_or_create_folder, create_folder, h, hcreate]
  · intro msg
    exact ⟨by simp, by simp⟩
  · intro parent_id name
    rfl

/-- Concrete environment witnessing the folder-resolution theorem: the
search finds one folder that carries an id. -/
def wFolderEnv : FolderRemote :=
  { listResult := .ok (some [⟨some "folder1", some "DB_Backups", none⟩])
    createResult := .ok (some "created1") }

theorem find_or_create_folder_spec_witness :
    wFolderEnv.listResult
        = .ok (some [⟨some "folder1", some "DB_Backups", none⟩])
    ∧ find_or_create_folder wFolderEnv = (.ok "folder1", false) :=
  ⟨rfl,
   ((find_or_create_folder_spec wFolderEnv).1
      ⟨some "folder1", some "DB_Backups", none⟩ [] "folder1" rfl rfl).1⟩

/-- The configuration fields consumed by the modelled code paths
(src/config/config.rs). -/
structure Config where
  db_name : String
  backup_temp_dir : String
  google_drive_folder_id : String
  mc_retention_count : Nat
deriving Repr, DecidableEq

/-- Observable actions of the orchestrator (src/main.rs): each constructor
marks one effectful call site. -/
inductive Action where
  | auth
  | findFolder (parent name : String)
  | backupDb
  | backupMc
  | uploadFile (folder_id path : String)
  | pruneFolder (folder_id : String) (keep : Nat)
  | removeFile (path : String)
deriving Repr, DecidableEq

/-- Outcomes of the remote and local calls an orchestrator run can make.
`remove_ok` tells whether removing a given local path succeeds; the source
only logs a removal failure. -/
structure OrchEnv where
  auth : Except String Unit
  find_folder : String → String → Except String String
  backup_db : Except String String
  backup_mc : Except String String
  upload : String → String → Except String Unit
  prune : String → Nat → Except String Nat
  remove_ok : String → Bool

/-- `run_db_backup` (src/main.rs lines 92-111): auth, resolve the
`DB_Backups` folder, produce the dump, upload it, and only then remove the
local dump (a removal failure is logged, not propagated). Every fallible
step short-circuits with `?`. Returns the run outcome and the trace of
actions performed. -/
def run_db_backup (env : OrchEnv) (cfg : Config) :
    Except String Unit × List Action :=
  let t1 := [Action.auth]
  match env.auth with
  | .error e => (.error e, t1)
  | .ok _ =>
    let t2 := t1 ++ [Action.findFolder cfg.google_drive_folder_id "DB_Backups"]
    match env.find_folder cfg.google_drive_folder_id "DB_Backups" with
    | .error e => (.error e, t2)
    | .ok folder_id =>
      let t3 := t2 ++ [Action.backupDb]
      match env.backup_db with
      | .error e => (.error e, t3)
      | .ok dump_path =>
        let t4 := t3 ++ [Action.uploadFile folder_id dump_path]
        match env.upload folder_id dump_path with
        | .error e => (.error e, t4)
        | .ok _ => (.ok (), t4 ++ [Action.removeFile dump_path])

/-- `run_minecraft_backup` (src/main.rs lines 113-138): auth, resolve the
`Minecraft_Backups` folder, produce the archive, upload it, prune, and only
then remove the local archive. Every fallible step short-circuits with
`?`. -/
def run_minecraft_backup (env : OrchEnv) (cfg : Config) :
    Except String Unit × List Action :=
  let t1 := [Action.auth]
  match env.auth with
  | .error e => (.error e, t1)
  | .ok _ =>
    let t2 := t1
      ++ [Action.findFolder cfg.google_drive_folder_id "Minecraft_Backups"]
    match env.find_folder cfg.google_drive_folder_id "Minecraft_Backups" with
    | .error e => (.error e, t2)
    | .ok folder_id =>
      let t3 := t2 ++ [Action.backupMc]
      match env.backup_mc with
      | .error e => (.error e, t3)
      | .ok archive_path =>
        let t4 := t3 ++ [Action.uploadFile folder_id archive_path]
        match env.upload folder_id archive_path with
        | .error e => (.error e, t4)
        | .ok _ =>
          let t5 := t4
            ++ [Action.pruneFolder folder_id cfg.mc_retention_count]
          match env.prune folder_id cfg.mc_retention_count with
          | .error e => (.error e, t5)
          | .ok _ => (.ok (), t5 ++ [Action.removeFile archive_path])

/-- `run_all` (src/main.rs lines 140-182): the DB stage in full (auth,
folder, dump, upload, local cleanup), then the Minecraft stage in full
(folder, archive, upload, prune, local cleanup), every fallible step
short-circuiting with `?`. -/
def run_all (env : OrchEnv) (cfg : Config) :
    Except String Unit × List Action :=
  let t1 := [Action.auth]
  match env.auth with
  | .error e => (.error e, t1)
  | .ok _ =>
    let t2 := t1 ++ [Action.findFolder cfg.google_drive_folder_id "DB_Backups"]
    match env.find_folder cfg.google_drive_folder_id "DB_Backups" with
    | .error e => (.error e, t2)
    | .ok db_folder_id =>
      let t3 := t2 ++ [Action.backupDb]
      match env.backup_db with
      | .error e => (.error e, t3)
      | .ok dump_path =>
        let t4 := t3 ++ [Action.uploadFile db_folder_id dump_path]
        match env.upload db_folder_id dump_path with
        | .error e => (.error e, t4)
        | .ok _ =>
          let t5 := t4 ++ [Action.removeFile dump_path,
            Action.findFolder cfg.google_drive_folder_id "Minecraft_Backups"]
          match env.find_folder cfg.google_drive_folder_id
              "Minecraft_Backups" with
          | .error e => (.error e, t5)
          | .ok mc_folder_id =>
            let t6 := t5 ++ [Action.backupMc]
            match env.backup_mc with
            | .error e => (.error e, t6)
            | .ok archive_path =>
              let t7 := t6 ++ [Action.uploadFile mc_folder_id archive_path]
              match env.upload mc_folder_id archive_path with
              | .error e => (.error e, t7)
              | .ok _ =>
                let t8 := t7
                  ++ [Action.pruneFolder mc_folder_id cfg.mc_retention_count]
                match env.prune mc_folder_id cfg.mc_retention_count with
                | .error e => (.error e, t8)
                | .ok _ => (.ok (), t8 ++ [Action.removeFile archive_path])

/-- Concrete configuration used by the orchestrator examples. -/
def wCfg : Config :=
  { db_name := "mydb"
    backup_temp_dir := "/tmp/db-backup-goog"
    google_drive_folder_id := "root1"
    mc_retention_count := 3 }

/-- Concrete artifact paths used by the orchestrator examples. -/
def wDumpPath : String := "/tmp/db-backup-goog/db_mydb_20260101_000000.dump"

def wArchivePath : String :=
  "/tmp/db-backup-goog/minecraft_20260101_000000.tar.zst"

/-- Environment in which every step succeeds except local removal. -/
def wEnvAllOk : OrchEnv :=
  { auth := .ok ()
    find_folder := fun _ name => .ok (name ++ "_id")
    backup_db := .ok wDumpPath
    backup_mc := .ok wArchivePath
    upload := fun _ _ => .ok ()
    prune := fun _ _ => .ok 1
    remove_ok := fun _ => false }

/-- Environment in which both artifacts are produced but every upload fails
with a transport error. -/
def wEnvUploadFail : OrchEnv :=
  { wEnvAllOk with upload := fun _ _ => .error "network down" }

/-- Environment in which the database dump itself fails. -/
def wEnvDbFail : OrchEnv :=
  { wEnvAllOk with backup_db := .error "pg_dump exited with status 1: boom" }

/-- Counterexample to C2: with the dump produced and the upload failing, the
`run_db_backup` trace ends at the upload — no removal of the produced
artifact is ever attempted on this exit path. -/
theorem run_db_backup_no_cleanup_on_upload_failure :
    (run_db_backup wEnvUploadFail wCfg).1 = .error "network down"
    ∧ (run_db_backup wEnvUploadFail wCfg).2
        = [Action.auth, Action.findFolder "root1" "DB_Backups",
           Action.backupDb, Action.uploadFile "DB_Backups_id" wDumpPath]
    ∧ Action.backupDb ∈ (run_db_backup wEnvUploadFail wCfg).2
    ∧ Action.removeFile wDumpPath ∉ (run_db_backup wEnvUploadFail wCfg).2 :=
  ⟨rfl, rfl, by decide, by decide⟩

/-- C2 amended: the orchestrator removes the local artifact only on the
fully successful path — `run_db_backup` attempts removal exactly when the
run succeeds (dump uploaded), `run_minecraft_backup` exactly when the run
succeeds (upload and prune both done); the removal targets the produced
artifact's path; and the removal's own outcome never changes the run
result. -/
theorem artifact_removed_only_on_success (env : OrchEnv) (cfg : Config) :
    ((∃ p, Action.removeFile p ∈ (run_db_backup env cfg).2) ↔
        (run_db_backup env cfg).1 = .ok ())
    ∧ ((∃ p, Action.removeFile p ∈ (run_minecraft_backup env cfg).2) ↔
        (run_minecraft_backup env cfg).1 = .ok ())
    ∧ (∀ p, env.backup_db = .ok p → (run_db_backup env cfg).1 = .ok () →
        Action.removeFile p ∈ (run_db_backup env cfg).2)
    ∧ (∀ p, env.backup_mc = .ok p →
        (run_minecraft_backup env cfg).1 = .ok () →
        Action.removeFile p ∈ (run_minecraft_backup env cfg).2)
    ∧ (∀ f, run_db_backup { env with remove_ok := f } cfg
        = run_db_backup env cfg)
    ∧ (∀ f, run_minecraft_backup { env with remove_ok := f } cfg
        = run_minecraft_backup env cfg) := by
  refine ⟨?_, ?_, ?_, ?_, fun f => rfl, fun f => rfl⟩
  · rcases ha : env.auth with e | u
    · simp [run_db_backup, ha]
    · cases u
      rcases hdf : env.find_folder cfg.google_drive_folder_id "DB_Backups"
        with e | dbf
      · simp [run_db_backup, ha, hdf]
      · rcases hdb : env.backup_db with e | p
        · simp [run_db_backup, ha, hdf, hdb]
        · rcases hup : env.upload dbf p with e | u2
          · simp [run_db_backup, ha, hdf, hdb, hup]
          · cases u2
            simp [run_db_backup, ha, hdf, hdb, hup]
  · rcases ha : env.auth with e | u
    · simp [run_minecraft_backup, ha]
    · cases u
      rcases hdf : env.find_folder cfg.google_drive_folder_id
          "Minecraft_Backups" with e | mcf
      · simp [run_minecraft_backup, ha, hdf]
      · rcases hmc : env.backup_mc with e | p
        · simp [run_minecraft_backup, ha, hdf, hmc]
        · rcases hup : env.upload mcf p with e | u2
          · simp [run_minecraft_backup, ha, hdf, hmc, hup]
          · cases u2
            rcases hpr : env.prune mcf cfg.mc_retention_count with e | n
            · simp [run_minecraft_backup, ha, hdf, hmc, hup, hpr]
            · simp [run_minecraft_backup, ha, hdf, hmc, hup, hpr]
  · intro p hdb hok
    rcases ha : env.auth with e | u
    · simp [run_db_backup, ha] at hok
    · cases u
      rcases hdf : env.find_folder cfg.google_drive_folder_id "DB_Backups"
        with e | dbf
      · simp [run_db_backup, ha, hdf] at hok
      · rcases hup : env.upload dbf p with e | u2
        · simp [run_db_backup, ha, hdf, hdb, hup] at hok
        · cases u2
          simp [run_db_backup, ha, hdf, hdb, hup]
  · intro p hmc hok
    rcases ha : env.auth with e | u
    · simp [run_minecraft_backup, ha] at hok
    · cases u
      rcases hdf : env.find_folder cfg.google_drive_folder_id
          "Minecraft_Backups" with e | mcf
      · simp [run_minecraft_backup, ha, hdf] at hok
      · rcases hup : env.upload mcf p with e | u2
        · simp [run_minecraft_backup, ha, hdf, hmc, hup] at hok
        · cases u2
          rcases hpr : env.prune mcf cfg.mc_retention_count with e | n
          · simp [run_minecraft_backup, ha, hdf, hmc, hup, hpr] at hok
          · simp [run_minecraft_backup, ha, hdf, hmc, hup, hpr]

theorem artifact_removed_only_on_success_witness :
    ((∃ p, Action.removeFile p ∈ (run_db_backup wEnvAllOk wCfg).2) ↔
        (run_db_backup wEnvAllOk wCfg).1 = .ok ())
    ∧ Action.removeFile wDumpPath ∈ (run_db_backup wEnvAllOk wCfg).2
    ∧ Action.removeFile wArchivePath
        ∈ (run_minecraft_backup wEnvAllOk wCfg).2 :=
  ⟨(artifact_removed_only_on_success wEnvAllOk wCfg).1,
   (artifact_removed_only_on_success wEnvAllOk wCfg).2.2.1 wDumpPath rfl rfl,
   (artifact_removed_only_on_success wEnvAllOk wCfg).2.2.2.1 wArchivePath
     rfl rfl⟩

/-- Counterexample to C3: in run-everything mode with the database dump
failing and every other step able to succeed, the invocation stops at the
dump — the Minecraft backup is never produced, uploaded, or pruned. -/
theorem run_all_db_failure_blocks_minecraft :
    (run_all wEnvDbFail wCfg).1 = .error "pg_dump exited with status 1: boom"
    ∧ (run_all wEnvDbFail wCfg).2
        = [Action.auth, Action.findFolder "root1" "DB_Backups",
           Action.backupDb]
    ∧ Action.backupMc ∉ (run_all wEnvDbFail wCfg).2
    ∧ Action.uploadFile "Minecraft_Backups_id" wArchivePath
        ∉ (run_all wEnvDbFail wCfg).2
    ∧ Action.pruneFolder "Minecraft_Backups_id" 3
        ∉ (run_all wEnvDbFail wCfg).2 :=
  ⟨rfl, rfl, by decide, by decide, by decide⟩

/-- C3 amended: `run_all` runs the two kinds sequentially and propagates the
first failure — the Minecraft backup is attempted exactly when the whole DB
stage (auth, folder resolution, dump, upload) and the Minecraft folder
resolution all succeeded, so a DB-stage failure prevents the Minecraft kind
from running in the same invocation. -/
theorem run_all_sequential_first_failure (env : OrchEnv) (cfg : Config) :
    Action.backupMc ∈ (run_all env cfg).2 ↔
      (env.auth = .ok ()
        ∧ ∃ dbf, env.find_folder cfg.google_drive_folder_id "DB_Backups"
            = .ok dbf
          ∧ ∃ p, env.backup_db = .ok p
            ∧ env.upload dbf p = .ok ()
            ∧ ∃ mcf, env.find_folder cfg.google_drive_folder_id
                "Minecraft_Backups" = .ok mcf) := by
  rcases ha : env.auth with e | u
  · simp [run_all, ha]
  · cases u
    rcases hdf : env.find_folder cfg.google_drive_folder_id "DB_Backups"
      with e | dbf
    · simp [run_all, ha, hdf]
    · rcases hdb : env.backup_db with e | p
      · simp [run_all, ha, hdf, hdb]
      · rcases hup : env.upload dbf p with e | u2
        · simp [run_all, ha, hdf, hdb, hup]
        · cases u2
          rcases hmf : env.find_folder cfg.google_drive_folder_id
              "Minecraft_Backups" with e | mcf
          · simp [run_all, ha, hdf, hdb, hup, hmf]
          · rcases hmc : env.backup_mc with e | ap
            · simp [run_all, ha, hdf, hdb, hup, hmf, hmc]
            · rcases hup2 : env.upload mcf ap with e | u3
              · simp [run_all, ha, hdf, hdb, hup, hmf, hmc, hup2]
              · cases u3
                rcases hpr : env.prune mcf cfg.mc_retention_count with e | n
                · simp [run_all, ha, hdf, hdb, hup, hmf, hmc, hup2, hpr]
                · simp [run_all, ha, hdf, hdb, hup, hmf, hmc, hup2, hpr]

/-- Two-digit zero padding, as chrono's `%m %d %H %M %S` fields. -/
def pad2 (n : Nat) : String :=
  if n < 10 then "0" ++ toString n else toString n

/-- Four-digit zero padding, as chrono's `%Y` field. -/
def pad4 (n : Nat) : String :=
  if n < 10 then "000" ++ toString n
  else if n < 100 then "00" ++ toString n
  else if n < 1000 then "0" ++ toString n
  else toString n

/-- The timestamp format string `%Y%m%d_%H%M%S` used by both producers. -/
def format_timestamp (y mo d h mi s : Nat) : String :=
  pad4 y ++ pad2 mo ++ pad2 d ++ "_" ++ pad2 h ++ pad2 mi ++ pad2 s

/-- The database artifact file name (src/backup/db.rs line 10):
`db_{db_name}_{timestamp}.dump`. -/
def db_backup_filename (db_name ts : String) : String :=
  "db_" ++ db_name ++ "_" ++ ts ++ ".dump"

/-- The directory artifact file name (src/backup/minecraft.rs line 12):
`minecraft_{timestamp}.tar.zst`. -/
def minecraft_backup_filename (ts : String) : String :=
  "minecraft_" ++ ts ++ ".tar.zst"

/-- The artifact naming pattern following the spec's words (§6):
`{kind}_{YYYYMMDD_HHMMSS}.{ext}`. Kept separate from the source-side
filename definitions so the two can be compared. -/
def spec_artifact_filename (kind ts ext : String) : String :=
  kind ++ "_" ++ ts ++ "." ++ ext

/-- The database artifact's full path: temp dir joined with the file name. -/
def db_output_path (cfg : Config) (ts : String) : String :=
  cfg.backup_temp_dir ++ "/" ++ db_backup_filename cfg.db_name ts

/-- The directory artifact's full path. -/
def minecraft_output_path (cfg : Config) (ts : String) : String :=
  cfg.backup_temp_dir ++ "/" ++ minecraft_backup_filename ts

/-- Helper: the Minecraft file name does follow the spec pattern with kind
`minecraft` and extension `tar.zst`. -/
theorem minecraft_filename_matches_pattern (ts : String) :
    minecraft_backup_filename ts
      = spec_artifact_filename "minecraft" ts "tar.zst" := by
  unfold minecraft_backup_filename spec_artifact_filename
  rw [String.append_assoc ("minecraft" ++ "_" ++ ts) "." "tar.zst"]
  rfl

/-- Counterexample to C10: the database artifact name produced for database
`mydb` at timestamp 20260101_120000 is `db_mydb_20260101_120000.dump` — no
single kind string makes the database names fit `{kind}_{timestamp}.dump`,
because the name also contains the configured database name. -/
theorem db_filename_not_kind_timestamp :
    db_backup_filename "mydb" (format_timestamp 2026 1 1 12 0 0)
        = "db_mydb_20260101_120000.dump"
    ∧ ¬ ∃ kind : String, ∀ db_name : String,
        db_backup_filename db_name (format_timestamp 2026 1 1 12 0 0)
          = spec_artifact_filename kind (format_timestamp 2026 1 1 12 0 0)
              "dump" := by
  refine ⟨by decide, ?_⟩
  rintro ⟨kind, h⟩
  have h2 : db_backup_filename "alpha" (format_timestamp 2026 1 1 12 0 0)
      = db_backup_filename "beta" (format_timestamp 2026 1 1 12 0 0) :=
    (h "alpha").trans (h "beta").symm
  exact absurd h2 (by decide)

/-- C10 amended: the directory artifact follows the spec pattern
`{kind}_{YYYYMMDD_HHMMSS}.{ext}` with kind `minecraft` and extension
`tar.zst`; the database artifact additionally carries the configured
database name — `db_{db_name}_{YYYYMMDD_HHMMSS}.dump`; both are written
under the configured temp directory. -/
theorem artifact_naming_amended (cfg : Config) (y mo d h mi s : Nat) :
    minecraft_output_path cfg (format_timestamp y mo d h mi s)
        = cfg.backup_temp_dir ++ "/"
          ++ spec_artifact_filename "minecraft" (format_timestamp y mo d h mi s)
              "tar.zst"
    ∧ db_output_path cfg (format_timestamp y mo d h mi s)
        = cfg.backup_temp_dir ++ "/"
          ++ ("db_" ++ cfg.db_name ++ "_" ++ format_timestamp y mo d h mi s
              ++ ".dump") := by
  refine ⟨?_, rfl⟩
  unfold minecraft_output_path
  rw [minecraft_filename_matches_pattern]

/-- Captured result of the spawned `pg_dump` process: exit success flag, the
displayed exit status, and the captured standard-error text. -/
structure DumpOutput where
  success : Bool
  status : String
  stderr : String
deriving Repr, DecidableEq

/-- Outcomes of the calls `backup_db` can make: the spawn/wait of `pg_dump`,
whether the tool left a (possibly partial) destination file behind, the stat
of the destination, and whether a removal of the destination succeeds. -/
structure DumpEnv where
  spawn : Except String DumpOutput
  file_written : Bool
  stat : Except String Nat
  remove_ok : Bool

namespace Db

/-- `cleanup_temp_file` (src/backup/db.rs lines 75-85): remove the file,
treating a not-found error as fine and merely logging any other failure.
Input: whether the file exists and whether removal would succeed; output:
whether the file is absent afterwards. -/
def cleanup_temp_file (file_exists remove_ok : Bool) : Bool :=
  if file_exists then remove_ok else true

end Db

/-- Result of one `backup_db` invocation: the returned value, how many times
the dump tool was spawned, whether cleanup ran, and whether the destination
file is absent afterwards. -/
structure DbOutcome where
  result : Except String String
  spawn_attempts : Nat
  cleanup_invoked : Bool
  file_absent_after : Bool

/-- `backup_db` (src/backup/db.rs lines 8-73): spawn `pg_dump` once; a spawn
failure is an error; a non-zero exit is an error carrying the captured
stderr, preceded by cleanup of the destination; a zero exit whose
destination cannot be statted is an error (no cleanup on that path); on
success the artifact path is returned. -/
def backup_db (cfg : Config) (ts : String) (env : DumpEnv) : DbOutcome :=
  let output_path := db_output_path cfg ts
  match env.spawn with
  | .error e =>
    { result := .error ("Failed to spawn pg_dump process: " ++ e)
      spawn_attempts := 1
      cleanup_invoked := false
      file_absent_after := !env.file_written }
  | .ok output =>
    if output.success = false then
      { result := .error ("pg_dump exited with status " ++ output.status
          ++ ": " ++ output.stderr)
        spawn_attempts := 1
        cleanup_invoked := true
        file_absent_after := Db.cleanup_temp_file env.file_written env.remove_ok }
    else
      match env.stat with
      | .error e =>
        { result := .error ("Failed to stat pg_dump output file: " ++ e)
          spawn_attempts := 1
          cleanup_invoked := false
          file_absent_after := !env.file_written }
      | .ok _ =>
        { result := .ok output_path
          spawn_attempts := 1
          cleanup_invoked := false
          file_absent_after := false }

/-- C8: a spawn failure yields an error; a non-zero exit yields an error
carrying the captured stderr and the destination is cleaned up (absent
whenever the removal itself succeeds); a zero exit with an unstatable
destination yields an error; on success the artifact path is returned; and
exactly one spawn attempt is made in every case. -/
theorem backup_db_spec (cfg : Config) (ts : String) (env : DumpEnv) :
    (∀ e, env.spawn = .error e →
        (backup_db cfg ts env).result
          = .error ("Failed to spawn pg_dump process: " ++ e))
    ∧ (∀ output, env.spawn = .ok output → output.success = false →
        (backup_db cfg ts env).result
            = .error ("pg_dump exited with status " ++ output.status
                ++ ": " ++ output.stderr)
        ∧ (backup_db cfg ts env).cleanup_invoked = true
        ∧ (env.remove_ok = true →
            (backup_db cfg ts env).file_absent_after = true))
    ∧ (∀ output e, env.spawn = .ok output → output.success = true →
        env.stat = .error e →
        (backup_db cfg ts env).result
          = .error ("Failed to stat pg_dump output file: " ++ e))
    ∧ (∀ output n, env.spawn = .ok output → output.success = true →
        env.stat = .ok n →
        (backup_db cfg ts env).result = .ok (db_output_path cfg ts))
    ∧ (backup_db cfg ts env).spawn_attempts = 1 := by
  refine ⟨?_, ?_, ?_, ?_, ?_⟩
  · intro e hs
    simp [backup_db, hs]
  · intro output hs hfail
    refine ⟨by simp [backup_db, hs, hfail], by simp [backup_db, hs, hfail], ?_⟩
    intro hrm
    cases hw : env.file_written <;>
      simp [backup_db, hs, hfail, Db.cleanup_temp_file, hw, hrm]
  · intro output e hs hok hstat
    simp [backup_db, hs, hok, hstat]
  · intro output n hs hok hstat
    simp [backup_db, hs, hok, hstat]
  · rcases hs : env.spawn with e | output
    · simp [backup_db, hs]
    · cases hsu : output.success
      · simp [backup_db, hs, hsu]
      · rcases hstat : env.stat with e | n <;> simp [backup_db, hs, hsu, hstat]

/-- Dump environment in which `pg_dump` exits non-zero, used as witness. -/
def wDumpEnvFail : DumpEnv :=
  { spawn := .ok { success := false, status := "1", stderr := "connection refused" }
    file_written := true
    stat := .error "No such file or directory"
    remove_ok := true }

theorem backup_db_spec_witness :
    wDumpEnvFail.spawn
        = .ok { success := false, status := "1", stderr := "connection refused" }
    ∧ ((backup_db wCfg "20260101_120000" wDumpEnvFail).result
          = .error ("pg_dump exited with status " ++ "1" ++ ": "
              ++ "connection refused")
        ∧ (backup_db wCfg "20260101_120000" wDumpEnvFail).cleanup_invoked = true
        ∧ (wDumpEnvFail.remove_ok = true →
            (backup_db wCfg "20260101_120000" wDumpEnvFail).file_absent_after
              = true)) :=
  ⟨rfl,
   (backup_db_spec wCfg "20260101_120000" wDumpEnvFail).2.1
     { success := false, status := "1", stderr := "connection refused" }
     rfl rfl⟩

/-- Outcomes of the calls `backup_minecraft` can make: whether the source
path exists, the result of each stage of the blocking archival pipeline, an
abnormal termination (panic) of the dedicated blocking worker, whether a
partial output file was left on disk, and whether its removal succeeds. -/
structure ArchiveEnv where
  src_exists : Bool
  create_file : Except String Unit
  new_encoder : Except String Unit
  set_multithread : Except String Unit
  append_dir_all : Except String Unit
  finish_tar : Except String Unit
  finish_zstd : Except String Unit
  flush_writer : Except String Unit
  stat_output : Except String Nat
  task_panic : Option String
  leftover_file_exists : Bool
  remove_ok : Bool

/-- The blocking closure of `backup_minecraft` (src/backup/minecraft.rs
lines 35-105): output-file creation, zstd encoder setup, multithreading
setup, tree walk (`append_dir_all`), tar finalization, zstd finalization,
buffer flush, and final stat, each failing stage aborting with its own
contextualized error. -/
def mc_blocking_task (env : ArchiveEnv) : Except String Nat :=
  match env.create_file with
  | .error e => .error ("Failed to create output file: " ++ e)
  | .ok _ =>
  match env.new_encoder with
  | .error e => .error ("Failed to create zstd encoder: " ++ e)
  | .ok _ =>
  match env.set_multithread with
  | .error e => .error ("Failed to enable zstd multithreading: " ++ e)
  | .ok _ =>
  match env.append_dir_all with
  | .error e => .error ("Failed to build tar archive: " ++ e)
  | .ok _ =>
  match env.finish_tar with
  | .error e => .error ("Failed to finalize tar archive: " ++ e)
  | .ok _ =>
  match env.finish_zstd with
  | .error e => .error ("Failed to finalize zstd compression: " ++ e)
  | .ok _ =>
  match env.flush_writer with
  | .error e => .error ("Failed to flush output buffer: " ++ e)
  | .ok _ =>
  match env.stat_output with
  | .error e => .error ("Failed to get output file metadata: " ++ e)
  | .ok n => .ok n

namespace Minecraft

/-- `cleanup_temp_file` (src/backup/minecraft.rs lines 131-142): remove the
file, treating not-found as fine and merely logging any other failure.
Input: whether the file exists and whether removal would succeed; output:
whether the file is absent afterwards. -/
def cleanup_temp_file (file_exists remove_ok : Bool) : Bool :=
  if file_exists then remove_ok else true

end Minecraft

/-- Result of one `backup_minecraft` invocation. -/
structure McOutcome where
  result : Except String String
  cleanup_invoked : Bool
  file_absent_after : Bool
deriving Repr

/-- `backup_minecraft` (src/backup/minecraft.rs lines 10-129): a missing
source path fails before any file is created; a panic of the blocking worker
is caught, cleaned up after, and converted into an ordinary error; an error
from any pipeline stage is cleaned up after and propagated; on success the
artifact path is returned with no cleanup. -/
def backup_minecraft (cfg : Config) (ts : String) (env : ArchiveEnv) :
    McOutcome :=
  if env.src_exists = false then
    { result := .error "Minecraft server path does not exist"
      cleanup_invoked := false
      file_absent_after := true }
  else
    match env.task_panic with
    | some msg =>
      { result := .error ("Minecraft backup blocking task panicked: " ++ msg)
        cleanup_invoked := true
        file_absent_after :=
          Minecraft.cleanup_temp_file env.leftover_file_exists env.remove_ok }
    | none =>
      match mc_blocking_task env with
      | .error e =>
        { result := .error e
          cleanup_invoked := true
          file_absent_after :=
            Minecraft.cleanup_temp_file env.leftover_file_exists env.remove_ok }
      | .ok _ =>
        { result := .ok (minecraft_output_path cfg ts)
          cleanup_invoked := false
          file_absent_after := false }

/-- C7: a failure at any pipeline stage aborts the operation, triggers
removal of the partial output (absent whenever the removal itself succeeds),
and reports the originating stage's error; a panic of the blocking worker is
caught and becomes an ordinary error, also with cleanup; the pipeline
succeeds exactly when all eight stages succeed, in which case no cleanup
runs and the artifact path is returned. -/
theorem backup_minecraft_failure_handling (cfg : Config) (ts : String)
    (env : ArchiveEnv) :
    (∀ e, env.src_exists = true → env.task_panic = none →
        mc_blocking_task env = .error e →
        backup_minecraft cfg ts env =
          { result := .error e
            cleanup_invoked := true
            file_absent_after :=
              Minecraft.cleanup_temp_file env.leftover_file_exists
                env.remove_ok })
    ∧ (∀ msg, env.src_exists = true → env.task_panic = some msg →
        backup_minecraft cfg ts env =
          { result := .error ("Minecraft backup blocking task panicked: "
              ++ msg)
            cleanup_invoked := true
            file_absent_after :=
              Minecraft.cleanup_temp_file env.leftover_file_exists
                env.remove_ok })
    ∧ (∀ n, env.src_exists = true → env.task_panic = none →
        mc_blocking_task env = .ok n →
        backup_minecraft cfg ts env =
          { result := .ok (minecraft_output_path cfg ts)
            cleanup_invoked := false
            file_absent_after := false })
    ∧ (∀ n, mc_blocking_task env = .ok n ↔
        (env.create_file = .ok () ∧ env.new_encoder = .ok ()
          ∧ env.set_multithread = .ok () ∧ env.append_dir_all = .ok ()
          ∧ env.finish_tar = .ok () ∧ env.finish_zstd = .ok ()
          ∧ env.flush_writer = .ok () ∧ env.stat_output = .ok n))
    ∧ (env.remove_ok = true →
        Minecraft.cleanup_temp_file env.leftover_file_exists env.remove_ok
          = true) := by
  refine ⟨?_, ?_, ?_, ?_, ?_⟩
  · intro e hsrc hpanic htask
    simp [backup_minecraft, hsrc, hpanic, htask]
  · intro msg hsrc hpanic
    simp [backup_minecraft, hsrc, hpanic]
  · intro n hsrc hpanic htask
    simp [backup_minecraft, hsrc, hpanic, htask]
  · intro n
    rcases h1 : env.create_file with e | u1
    · simp [mc_blocking_task, h1]
    · cases u1
      rcases h2 : env.new_encoder with e | u2
      · simp [mc_blocking_task, h1, h2]
      · cases u2
        rcases h3 : env.set_multithread with e | u3
        · simp [mc_blocking_task, h1, h2, h3]
        · cases u3
          rcases h4 : env.append_dir_all with e | u4
          · simp [mc_blocking_task, h1, h2, h3, h4]
          · cases u4
            rcases h5 : env.finish_tar with e | u5
            · simp [mc_blocking_task, h1, h2, h3, h4, h5]
            · cases u5
              rcases h6 : env.finish_zstd with e | u6
              · simp [mc_blocking_task, h1, h2, h3, h4, h5, h6]
              · cases u6
                rcases h7 : env.flush_writer with e | u7
                · simp [mc_blocking_task, h1, h2, h3, h4, h5, h6, h7]
                · cases u7
                  rcases h8 : env.stat_output with e | m <;>
                    simp [mc_blocking_task, h1, h2, h3, h4, h5, h6, h7, h8,
                      eq_comm]
  · intro hrm
    cases hw : env.leftover_file_exists <;>
      simp [Minecraft.cleanup_temp_file, hw, hrm]

/-- Archive environment in which the tree walk fails, used as witness. -/
def wArchiveEnvFail : ArchiveEnv :=
  { src_exists := true
    create_file := .ok ()
    new_encoder := .ok ()
    set_multithread := .ok ()
    append_dir_all := .error "Permission denied"
    finish_tar := .ok ()
    finish_zstd := .ok ()
    flush_writer := .ok ()
    stat_output := .ok 1024
    task_panic := none
    leftover_file_exists := true
    remove_ok := true }

theorem backup_minecraft_failure_handling_witness :
    mc_blocking_task wArchiveEnvFail
        = .error ("Failed to build tar archive: " ++ "Permission denied")
    ∧ backup_minecraft wCfg "20260101_120000" wArchiveEnvFail =
        { result := .error ("Failed to build tar archive: "
            ++ "Permission denied")
          cleanup_invoked := true
          file_absent_after :=
            Minecraft.cleanup_temp_file wArchiveEnvFail.leftover_file_exists
              wArchiveEnvFail.remove_ok } :=
  ⟨rfl,
   (backup_minecraft_failure_handling wCfg "20260101_120000"
       wArchiveEnvFail).1
     ("Failed to build tar archive: " ++ "Permission denied") rfl rfl rfl⟩

mutual
/-- A node of a source directory tree: a regular file with its bytes, a
symlink with its recorded target path, or a directory with children. -/
inductive FsEntry where
  | file (name : String) (content : List Nat)
  | symlink (name : String) (target : String)
  | dir (name : String) (entries : FsTree)
/-- A list of sibling tree nodes. -/
inductive FsTree where
  | leaf
  | cons (e : FsEntry) (rest : FsTree)
end

/-- An entry of the produced tape archive. -/
inductive ArchiveEntry where
  | fileEntry (path : String) (content : List Nat)
  | dirEntry (path : String)
  | symlinkEntry (path : String) (target : String)
deriving Repr, DecidableEq

mutual
/-- Modelled from the spec: the walk of `tar::Builder::append_dir_all`
(library code of the `tar` crate, not in this repository), as §4.2
describes it — a depth-first walk writing each entry (regular file,
directory, symlink record) into the stream. `resolve` is the filesystem
lookup of a symlink target's bytes; with `follow = true` a symlink is
replaced by its target's content, with `follow = false` (the mode
`backup_minecraft` selects via `follow_symlinks(false)`, src/backup/
minecraft.rs lines 58-63) the symlink is archived as a symlink entry
pointing to its recorded target. -/
def archiveEntry (resolve : String → Option (List Nat)) (follow : Bool)
    (path : String) : FsEntry → List ArchiveEntry
  | .file n c => [.fileEntry (path ++ "/" ++ n) c]
  | .symlink n t =>
    if follow then
      match resolve t with
      | some bytes => [.fileEntry (path ++ "/" ++ n) bytes]
      | none => []
    else [.symlinkEntry (path ++ "/" ++ n) t]
  | .dir n es =>
    .dirEntry (path ++ "/" ++ n)
      :: archiveTree resolve follow (path ++ "/" ++ n) es
/-- Modelled from the spec: the walk of `tar::Builder::append_dir_all` over
a sibling list. -/
def archiveTree (resolve : String → Option (List Nat)) (follow : Bool)
    (path : String) : FsTree → List ArchiveEntry
  | .leaf => []
  | .cons e rest =>
    archiveEntry resolve follow path e ++ archiveTree resolve follow path rest
end

/-- The archive `backup_minecraft` builds: `append_dir_all("minecraft", mc)`
with `follow_symlinks(false)`. -/
def backup_tar_archive (resolve : String → Option (List Nat))
    (t : FsTree) : List ArchiveEntry :=
  archiveTree resolve false "minecraft" t

mutual
/-- The byte contents of the regular files of one tree node. -/
def entryFileContents : FsEntry → List (List Nat)
  | .file _ c => [c]
  | .symlink _ _ => []
  | .dir _ es => treeFileContents es
/-- The byte contents of the regular files of a tree. -/
def treeFileContents : FsTree → List (List Nat)
  | .leaf => []
  | .cons e rest => entryFileContents e ++ treeFileContents rest
end

mutual
/-- The symlink targets recorded in one tree node. -/
def entrySymlinkTargets : FsEntry → List String
  | .file _ _ => []
  | .symlink _ t => [t]
  | .dir _ es => treeSymlinkTargets es
/-- The symlink targets recorded in a tree. -/
def treeSymlinkTargets : FsTree → List String
  | .leaf => []
  | .cons e rest => entrySymlinkTargets e ++ treeSymlinkTargets rest
end

/-- The byte contents of the file entries of an archive. -/
def archiveFileContents (l : List ArchiveEntry) : List (List Nat) :=
  l.filterMap fun a =>
    match a with
    | .fileEntry _ c => some c
    | _ => none

/-- The targets of the symlink entries of an archive. -/
def archiveSymlinkTargets (l : List ArchiveEntry) : List String :=
  l.filterMap fun a =>
    match a with
    | .symlinkEntry _ t => some t
    | _ => none

mutual
/-- Helper: with `follow = false` the walk of one node never consults the
filesystem lookup. -/
theorem archiveEntry_resolve_indep (r1 r2 : String → Option (List Nat)) :
    ∀ (p : String) (e : FsEntry),
      archiveEntry r1 false p e = archiveEntry r2 false p e
  | _, .file _ _ => rfl
  | _, .symlink _ _ => rfl
  | p, .dir n es => by
    simp only [archiveEntry]
    rw [archiveTree_resolve_indep r1 r2 (p ++ "/" ++ n) es]
/-- Helper: with `follow = false` the walk of a tree never consults the
filesystem lookup. -/
theorem archiveTree_resolve_indep (r1 r2 : String → Option (List Nat)) :
    ∀ (p : String) (t : FsTree),
      archiveTree r1 false p t = archiveTree r2 false p t
  | _, .leaf => rfl
  | p, .cons e rest => by
    simp only [archiveTree]
    rw [archiveEntry_resolve_indep r1 r2 p e,
      archiveTree_resolve_indep r1 r2 p rest]
end

mutual
/-- Helper: with `follow = false` the file bytes archived from one node are
exactly the node's regular-file contents. -/
theorem archiveEntry_contents (r : String → Option (List Nat)) :
    ∀ (p : String) (e : FsEntry),
      archiveFileContents (archiveEntry r false p e) = entryFileContents e
  | _, .file _ _ => rfl
  | _, .symlink _ _ => rfl
  | p, .dir n es => by
    simp only [archiveEntry, entryFileContents, archiveFileContents,
      List.filterMap_cons]
    exact archiveTree_contents r (p ++ "/" ++ n) es
/-- Helper: with `follow = false` the file bytes archived from a tree are
exactly the tree's regular-file contents. -/
theorem archiveTree_contents (r : String → Option (List Nat)) :
    ∀ (p : String) (t : FsTree),
      archiveFileContents (archiveTree r false p t) = treeFileContents t
  | _, .leaf => rfl
  | p, .cons e rest => by
    simp only [archiveTree, treeFileContents, archiveFileContents,
      List.filterMap_append]
    rw [← archiveFileContents, ← archiveFileContents,
      archiveEntry_contents r p e, archiveTree_contents r p rest]
end

mutual
/-- Helper: with `follow = false` the symlink targets archived from one node
are exactly the node's recorded targets. -/
theorem archiveEntry_symlinks (r : String → Option (List Nat)) :
    ∀ (p : String) (e : FsEntry),
      archiveSymlinkTargets (archiveEntry r false p e) = entrySymlinkTargets e
  | _, .file _ _ => rfl
  | _, .symlink _ _ => rfl
  | p, .dir n es => by
    simp only [archiveEntry, entrySymlinkTargets, archiveSymlinkTargets,
      List.filterMap_cons]
    exact archiveTree_symlinks r (p ++ "/" ++ n) es
/-- Helper: with `follow = false` the symlink targets archived from a tree
are exactly the tree's recorded targets. -/
theorem archiveTree_symlinks (r : String → Option (List Nat)) :
    ∀ (p : String) (t : FsTree),
      archiveSymlinkTargets (archiveTree r false p t) = treeSymlinkTargets t
  | _, .leaf => rfl
  | p, .cons e rest => by
    simp only [archiveTree, treeSymlinkTargets, archiveSymlinkTargets,
      List.filterMap_append]
    rw [← archiveSymlinkTargets, ← archiveSymlinkTargets,
      archiveEntry_symlinks r p e, archiveTree_symlinks r p rest]
end

/-- C9: the archiver never follows symlinks — the produced archive does not
depend on the filesystem outside the tree (any two target resolutions give
the same archive), each symlink becomes a symlink entry recording the link's
target path, the recorded targets are exactly the tree's symlink targets,
and the archived file bytes are exactly the contents of the tree's regular
files, so no bytes of any symlink target appear. -/
theorem backup_archive_never_follows_symlinks
    (resolve : String → Option (List Nat)) (t : FsTree) :
    (∀ resolve2, backup_tar_archive resolve t = backup_tar_archive resolve2 t)
    ∧ (∀ p n target, archiveEntry resolve false p (.symlink n target)
        = [.symlinkEntry (p ++ "/" ++ n) target])
    ∧ archiveSymlinkTargets (backup_tar_archive resolve t)
        = treeSymlinkTargets t
    ∧ archiveFileContents (backup_tar_archive resolve t)
        = treeFileContents t :=
  ⟨fun resolve2 => archiveTree_resolve_indep resolve resolve2 "minecraft" t,
   fun _ _ _ => rfl,
   archiveTree_symlinks resolve "minecraft" t,
   archiveTree_contents resolve "minecraft" t⟩

end Goog
